import Mathlib

/-!
Verification of the go-dns command-line DNS lookup utility (src/main.go).

The program is shallowly embedded: network effects (the system resolver and
the direct DNS exchange) are abstracted into a `ResolverEnv` of oracles, and
every lookup function from the source is translated into a pure Lean
function over that environment.  Go's `net.ParseIP` / `IP.To4` / `IP.To16`
(which the program uses to classify targets and filter addresses) are
translated from the Go standard library (`net` delegating to `net/netip`).
-/

namespace GoDNS

/-! ## Go `net/netip` address parsing, as used by `net.ParseIP` -/

/-- Hexadecimal digit value of a character, as accepted by netip's IPv6
group scanner (`0-9`, `a-f`, `A-F`). -/
def hexDigitVal (c : Char) : Option Nat :=
  if '0' ≤ c ∧ c ≤ '9' then some (c.toNat - '0'.toNat)
  else if 'a' ≤ c ∧ c ≤ 'f' then some (c.toNat - 'a'.toNat + 10)
  else if 'A' ≤ c ∧ c ≤ 'F' then some (c.toNat - 'A'.toNat + 10)
  else none

/-- Decimal digit test. -/
def isDecDigit (c : Char) : Bool := '0' ≤ c && c ≤ '9'

/-- netip `parseIPv4Fields`: scans dotted-decimal fields.  State carries the
current field value `val`, the number of digits seen in the current field
`digLen`, the number of completed fields `pos`, and the completed fields
`acc`.  Rejects leading zeros, values over 255, wrong field counts, empty
fields, and stray characters, exactly as the Go code does. -/
def parseIPv4Fields : List Char → Nat → Nat → Nat → List Nat → Option (List Nat)
  | [], val, _, pos, acc =>
    if pos < 3 then none else some (acc ++ [val])
  | c :: rest, val, digLen, pos, acc =>
    if isDecDigit c then
      if digLen = 1 ∧ val = 0 then none
      else
        let val' := val * 10 + (c.toNat - '0'.toNat)
        if val' > 255 then none
        else parseIPv4Fields rest val' (digLen + 1) pos acc
    else if c = '.' then
      if digLen = 0 then none
      else if rest = [] then none
      else if pos = 3 then none
      else parseIPv4Fields rest 0 0 (pos + 1) (acc ++ [val])
    else none

/-- The 12-byte header of an IPv4-in-IPv6 address (`::ffff:a.b.c.d`),
`net.v4InV6Prefix` in Go. -/
def v4InV6Header : List Nat := [0, 0, 0, 0, 0, 0, 0, 0, 0, 0, 0xff, 0xff]

/-- netip's IPv6 hex-group scanner: consumes leading hex digits, returning
the accumulated value, the digit count and the rest; fails on a fifth
digit (Go's `off > 3` check). -/
def scanHexGroup : List Char → Nat → Nat → Option (Nat × Nat × List Char)
  | [], acc, n => some (acc, n, [])
  | c :: rest, acc, n =>
    match hexDigitVal c with
    | some v => if 4 ≤ n then none else scanHexGroup rest (acc * 16 + v) (n + 1)
    | none => some (acc, n, c :: rest)

/-- Post-loop step of netip `parseIPv6`: if fewer than 16 bytes were
written the ellipsis expands with zeros; a full address must not also
contain an ellipsis. -/
def finishIPv6 (acc : List Nat) (ellipsis : Option Nat) : Option (List Nat) :=
  if acc.length < 16 then
    match ellipsis with
    | none => none
    | some e => some (acc.take e ++ List.replicate (16 - acc.length) 0 ++ acc.drop e)
  else
    match ellipsis with
    | some _ => none
    | none => some acc

/-- Main loop of netip `parseIPv6`.  `acc` holds the bytes written so far
(Go's `ip[0:i]`, so `i = acc.length`), `ellipsis` the position of `::` if
seen.  The loop runs while `i < 16` and `i` grows by two each iteration,
so a fuel of 8 never runs out. -/
def parseIPv6Loop : Nat → List Char → Option Nat → List Nat → Option (List Nat)
  | 0, _, _, _ => none
  | fuel + 1, s, ellipsis, acc =>
    match scanHexGroup s 0 0 with
    | none => none
    | some (v, cnt, rest) =>
      if cnt = 0 then none
      else if rest.head? = some '.' then
        -- trailing embedded IPv4, reparsed from the start of this group
        if ellipsis = none ∧ acc.length ≠ 12 then none
        else if acc.length + 4 > 16 then none
        else
          match parseIPv4Fields s 0 0 0 [] with
          | none => none
          | some f4 => finishIPv6 (acc ++ f4) ellipsis
      else
        let acc' := acc ++ [v / 256, v % 256]
        match rest with
        | [] => finishIPv6 acc' ellipsis
        | ':' :: rest2 =>
          match rest2 with
          | [] => none
          | ':' :: rest3 =>
            if ellipsis.isSome then none
            else if rest3 = [] then finishIPv6 acc' (some acc'.length)
            else if 16 ≤ acc'.length then none
            else parseIPv6Loop fuel rest3 (some acc'.length) acc'
          | _ =>
            if 16 ≤ acc'.length then none
            else parseIPv6Loop fuel rest2 ellipsis acc'
        | _ => none

/-- netip `parseIPv6` (zones are rejected by `net.ParseIP`, and the `%`
character is not a hex digit, a colon or a dot, so it simply fails here). -/
def parseIPv6 (s : List Char) : Option (List Nat) :=
  match s with
  | ':' :: ':' :: rest =>
    if rest = [] then some (List.replicate 16 0)
    else parseIPv6Loop 8 rest (some 0) []
  | _ => parseIPv6Loop 8 s none []

/-- Dispatch of netip `ParseAddr`: scan for the first `.`, `:` or `%`; a
dot selects IPv4 parsing, a colon IPv6 parsing, a percent (or no marker at
all) fails.  `net.ParseIP` returns the 16-byte `As16` form, so a parsed
IPv4 address is returned in IPv4-in-IPv6 form. -/
def classifyAddr (s : List Char) : List Char → Option (List Nat)
  | [] => none
  | c :: rest =>
    if c = '.' then (parseIPv4Fields s 0 0 0 []).map (fun f4 => v4InV6Header ++ f4)
    else if c = ':' then parseIPv6 s
    else if c = '%' then none
    else classifyAddr s rest

/-- Go `net.ParseIP`: `none` models the `nil` result. -/
def ParseIP (s : String) : Option (List Nat) :=
  classifyAddr s.toList s.toList

/-- Go `IP.To4`, lifted over the `nil` IP (`none`): a 4-byte address is
returned as is; a 16-byte address is shortened when it carries the
IPv4-in-IPv6 header; everything else gives `nil`. -/
def To4 : Option (List Nat) → Option (List Nat)
  | none => none
  | some ip =>
    if ip.length = 4 then some ip
    else if ip.length = 16 ∧ ip.take 12 = v4InV6Header then some (ip.drop 12)
    else none

/-- Go `IP.To16`, lifted over the `nil` IP (`none`). -/
def To16 : Option (List Nat) → Option (List Nat)
  | none => none
  | some ip =>
    if ip.length = 4 then some (v4InV6Header ++ ip)
    else if ip.length = 16 then some ip
    else none

/-! ## miekg/dns helpers used by the program -/

/-- miekg/dns `IsFqdn`: the name ends in a dot that is not escaped, i.e.
the trailing dot is preceded by an even number of backslashes. -/
def IsFqdn (s : String) : Bool :=
  match s.toList.reverse with
  | '.' :: rest => (rest.takeWhile (· = '\\')).length % 2 = 0
  | _ => false

/-- miekg/dns `Fqdn`: append a trailing dot unless already fully
qualified. -/
def Fqdn (s : String) : String :=
  if IsFqdn s then s else s ++ "."

/-- miekg/dns `StringToType`, restricted to the four type names the
program passes to it (a missing map key yields Go's zero value). -/
def StringToType (s : String) : Nat :=
  if s = "SOA" then 6
  else if s = "SRV" then 33
  else if s = "CERT" then 37
  else if s = "DNAME" then 39
  else 0

/-- miekg/dns `RcodeSuccess`. -/
def RcodeSuccess : Nat := 0

/-- A decoded resource record from a direct-query answer section, tagged
with its type: the program type-switches on `*dns.SOA`, `*dns.SRV`,
`*dns.CERT` and `*dns.DNAME`; `other` stands for every other record
type. -/
inductive RR where
  | soa (ns mbox : String) (serial : Nat)
  | srv (target : String) (port priority weight : Nat)
  | cert (ctype keyTag algorithm : Nat) (certificate : List Nat)
  | dname (target : String)
  | other
deriving DecidableEq, Repr

/-- A direct-query reply: its response code and answer section
(`resp.Rcode` and `resp.Answer`). -/
structure DnsMsg where
  rcode : Nat
  answer : List RR
deriving DecidableEq, Repr

/-- A Go `net.MX` record. -/
structure MX where
  host : String
  pref : Nat
deriving DecidableEq, Repr

/-- A Go `net.NS` record. -/
structure NS where
  host : String
deriving DecidableEq, Repr

/-- The ambient resolution machinery, abstracted: one oracle per `net`
resolver call the program makes, plus the direct exchange
(`dns.Client.Exchange` against 8.8.8.8:53), which receives the question's
name and numeric type.  Errors are modelled by their `%v` message. -/
structure ResolverEnv where
  lookupHost : String → Except String (List String)
  lookupCNAMEHost : String → Except String String
  lookupMXHost : String → Except String (List MX)
  lookupNSHost : String → Except String (List NS)
  lookupTXTHost : String → Except String (List String)
  lookupAddr : String → Except String (List String)
  exchange : String → Nat → Except String DnsMsg

/-! ## The lookup functions of src/main.go -/

/-- `lookupA`: all host addresses, filtered to those whose parsed IP
converts to 4-byte form (`net.ParseIP(addr).To4() != nil`). -/
def lookupA (env : ResolverEnv) (domain : String) : Except String (List String) :=
  match env.lookupHost domain with
  | .error err => .error err
  | .ok addrs => .ok (addrs.filter (fun addr => (To4 (ParseIP addr)).isSome))

/-- `lookupAAAA`: all host addresses, filtered to those whose parsed IP
converts to 16-byte form but not to 4-byte form. -/
def lookupAAAA (env : ResolverEnv) (domain : String) : Except String (List String) :=
  match env.lookupHost domain with
  | .error err => .error err
  | .ok addrs =>
    .ok (addrs.filter (fun addr =>
      (To16 (ParseIP addr)).isSome && (To4 (ParseIP addr)).isNone))

/-- `lookupCNAME`: the canonical name as a one-element list. -/
def lookupCNAME (env : ResolverEnv) (domain : String) : Except String (List String) :=
  match env.lookupCNAMEHost domain with
  | .error err => .error err
  | .ok cname => .ok [cname]

/-- `lookupMX`: each record formatted as `"<host> (pref <preference>)"`. -/
def lookupMX (env : ResolverEnv) (domain : String) : Except String (List String) :=
  match env.lookupMXHost domain with
  | .error err => .error err
  | .ok mxs => .ok (mxs.map (fun mx => mx.host ++ " (pref " ++ toString mx.pref ++ ")"))

/-- `lookupNS`: each record's bare host name. -/
def lookupNS (env : ResolverEnv) (domain : String) : Except String (List String) :=
  match env.lookupNSHost domain with
  | .error err => .error err
  | .ok nss => .ok (nss.map (fun ns => ns.host))

/-- `lookupTXT`: the raw text records. -/
def lookupTXT (env : ResolverEnv) (domain : String) : Except String (List String) :=
  match env.lookupTXTHost domain with
  | .error err => .error err
  | .ok txts => .ok txts

/-- `dnsQuery`: one synchronous exchange of the fully-qualified question;
an exchange failure propagates; a non-success response code becomes the
`"invalid answer for <domain> type <qtype>"` error; otherwise the answer
section is returned. -/
def dnsQuery (env : ResolverEnv) (domain qtype : String) : Except String (List RR) :=
  match env.exchange (Fqdn domain) (StringToType qtype) with
  | .error err => .error err
  | .ok resp =>
    if resp.rcode ≠ RcodeSuccess then
      .error ("invalid answer for " ++ domain ++ " type " ++ qtype)
    else
      .ok resp.answer

/-- The SOA branch of `lookupSOA`'s answer loop: a `*dns.SOA` record is
formatted, any other record is skipped. -/
def formatSOA : RR → Option String
  | .soa ns mbox serial =>
    some ("NS: " ++ ns ++ ", Mbox: " ++ mbox ++ ", Serial: " ++ toString serial)
  | _ => none

/-- `lookupSOA`. -/
def lookupSOA (env : ResolverEnv) (domain : String) : Except String (List String) :=
  match dnsQuery env domain "SOA" with
  | .error err => .error err
  | .ok rrs => .ok (rrs.filterMap formatSOA)

/-- `lookupPTR`: requires the input to parse as an IP literal, else fails
with the validation error; otherwise the reverse lookup's names are
returned as is. -/
def lookupPTR (env : ResolverEnv) (domain : String) : Except String (List String) :=
  if ParseIP domain = none then
    .error "PTR lookup requires an IP address"
  else
    match env.lookupAddr domain with
    | .error err => .error err
    | .ok ptr => .ok ptr

/-- The SRV branch of `lookupSRV`'s answer loop
(`"<target> <port> <priority> <weight>"`). -/
def formatSRV : RR → Option String
  | .srv target port priority weight =>
    some (target ++ " " ++ toString port ++ " " ++ toString priority ++ " " ++ toString weight)
  | _ => none

/-- `lookupSRV`. -/
def lookupSRV (env : ResolverEnv) (domain : String) : Except String (List String) :=
  match dnsQuery env domain "SRV" with
  | .error err => .error err
  | .ok rrs => .ok (rrs.filterMap formatSRV)

/-- Lowercase hex digit. -/
def hexDigitChar (n : Nat) : Char :=
  if n < 10 then Char.ofNat ('0'.toNat + n) else Char.ofNat ('a'.toNat + n - 10)

/-- Go `%x` of a byte string: two lowercase hex digits per byte. -/
def hexOfBytes (bs : List Nat) : String :=
  String.mk (bs.flatMap (fun b => [hexDigitChar (b / 16 % 16), hexDigitChar (b % 16)]))

/-- The CERT branch of `lookupCERT`'s answer loop. -/
def formatCERT : RR → Option String
  | .cert ctype keyTag algorithm certificate =>
    some ("Type: " ++ toString ctype ++ ", KeyTag: " ++ toString keyTag ++
      ", Algorithm: " ++ toString algorithm ++ ", Certificate: " ++ hexOfBytes certificate)
  | _ => none

/-- `lookupCERT`. -/
def lookupCERT (env : ResolverEnv) (domain : String) : Except String (List String) :=
  match dnsQuery env domain "CERT" with
  | .error err => .error err
  | .ok rrs => .ok (rrs.filterMap formatCERT)

/-- The DNAME branch of `lookupDNAME`'s answer loop (the bare target). -/
def formatDNAME : RR → Option String
  | .dname target => some target
  | _ => none

/-- `lookupDNAME`. -/
def lookupDNAME (env : ResolverEnv) (domain : String) : Except String (List String) :=
  match dnsQuery env domain "DNAME" with
  | .error err => .error err
  | .ok rrs => .ok (rrs.filterMap formatDNAME)

/-! ## Dispatcher and presenter (`main`) -/

/-- The per-record-type print step of `main`'s loop (and of the PTR
branch): an error prints one `"<label>: error: <message>"` line; a
non-empty result prints the label header and each record indented by two
spaces; an empty result prints nothing. -/
def renderEntry (label : String) (res : Except String (List String)) : List String :=
  match res with
  | .error err => [label ++ ": error: " ++ err]
  | .ok records =>
    if records.length > 0 then
      (label ++ ":") :: records.map (fun rec => "  " ++ rec)
    else []

/-- The `lookupFuncs` table of `main`, in source order. -/
def lookupFuncs : List (String × (ResolverEnv → String → Except String (List String))) :=
  [("A", lookupA), ("AAAA", lookupAAAA), ("CNAME", lookupCNAME), ("MX", lookupMX),
   ("NS", lookupNS), ("TXT", lookupTXT), ("SOA", lookupSOA), ("SRV", lookupSRV),
   ("CERT", lookupCERT), ("DNAME", lookupDNAME)]

/-- `main`'s loop over the table: runs each entry's lookup, renders its
lines, and moves on to the next entry unconditionally (the error case
merely `continue`s).  Returns the printed lines and the trace of invoked
entry labels. -/
def runTable (env : ResolverEnv) (target : String) :
    List (String × (ResolverEnv → String → Except String (List String))) →
    List String × List String
  | [] => ([], [])
  | (label, f) :: rest =>
    let res := f env target
    let (outs, invs) := runTable env target rest
    (renderEntry label res ++ outs, label :: invs)

/-- The observable outcome of one program run: exit status, stdout and
stderr as lists of lines, and the trace of lookups invoked. -/
structure RunResult where
  exitCode : Nat
  stdout : List String
  stderr : List String
  invoked : List String
deriving DecidableEq, Repr

/-- `main`, over the user-supplied arguments (`os.Args[1:]`): wrong
argument count prints usage to stderr and exits 1; otherwise the header is
printed and either the PTR path (IP literal) or the full table path
(domain name) runs, and the process exits 0. -/
def main (args : List String) (env : ResolverEnv) : RunResult :=
  match args with
  | [target] =>
    let isIP := (ParseIP target).isSome
    let header := ["DNS records for " ++ target ++ ":", ""]
    if isIP then
      { exitCode := 0
        stdout := header ++ renderEntry "PTR" (lookupPTR env target)
        stderr := []
        invoked := ["PTR"] }
    else
      let (outs, invs) := runTable env target lookupFuncs
      { exitCode := 0, stdout := header ++ outs, stderr := [], invoked := invs }
  | _ =>
    { exitCode := 1, stdout := [], stderr := ["Usage: godns <domain|ip>"], invoked := [] }

/-! ## Concrete environments used to instantiate the theorems -/

/-- An environment in which every resolution fails (name error / exchange
timeout). -/
def errEnv : ResolverEnv where
  lookupHost := fun _ => .error "no such host"
  lookupCNAMEHost := fun _ => .error "no such host"
  lookupMXHost := fun _ => .error "no such host"
  lookupNSHost := fun _ => .error "no such host"
  lookupTXTHost := fun _ => .error "no such host"
  lookupAddr := fun _ => .error "no such host"
  exchange := fun _ _ => .error "i/o timeout"

/-- An environment in which every resolution succeeds with fixed data. -/
def okEnv : ResolverEnv where
  lookupHost := fun _ => .ok ["93.184.216.34", "2606:2800:220:1:248:1893:25c8:1946"]
  lookupCNAMEHost := fun _ => .ok "example.com."
  lookupMXHost := fun _ => .ok [⟨"mail.example.com.", 10⟩]
  lookupNSHost := fun _ => .ok [⟨"ns1.example.com."⟩]
  lookupTXTHost := fun _ => .ok ["v=spf1 -all"]
  lookupAddr := fun _ => .ok ["dns.google."]
  exchange := fun _ _ => .ok ⟨0, [RR.soa "ns1.example.com." "admin.example.com." 2024010100]⟩

/-- The mocked direct-query reply of the SOA example: one SOA record and
one record of another type. -/
def soaMsg : DnsMsg :=
  ⟨0, [RR.soa "ns1.example.com" "admin.example.com" 2024010100, RR.other]⟩

/-- Environment whose direct exchange returns the mocked SOA reply. -/
def soaEnv : ResolverEnv := { errEnv with exchange := fun _ _ => .ok soaMsg }

/-- Environment whose direct exchange succeeds with a non-success
response code (NXDOMAIN). -/
def badRcodeEnv : ResolverEnv := { errEnv with exchange := fun _ _ => .ok ⟨3, []⟩ }

/-- Environment whose host lookup returns the two example addresses of
the A/AAAA filtering claim. -/
def c4Env : ResolverEnv :=
  { errEnv with
    lookupHost := fun _ => .ok ["93.184.216.34", "2606:2800:220:1:248:1893:25c8:1946"] }

/-- Environment whose host lookup returns an IPv4-mapped IPv6 address and
an unparseable string. -/
def c10Env : ResolverEnv :=
  { errEnv with lookupHost := fun _ => .ok ["::ffff:192.0.2.1", "bogus"] }

/-- The record list of a successful lookup (`[]` for an error). -/
def resultsOf : Except String (List String) → List String
  | .ok records => records
  | .error _ => []

/-- Whether a lookup returned without error. -/
def isOkResult : Except String (List String) → Bool
  | .ok _ => true
  | .error _ => false

/-! ## Claims -/

/-- C1: for every domain-name (non-IP-literal) target, the dispatcher
invokes all ten lookups in the exact fixed order A, AAAA, CNAME, MX, NS,
TXT, SOA, SRV, CERT, DNAME; the trace is the same for every environment,
so an error from one lookup never prevents a later one from being
invoked. -/
theorem c1_domain_invokes_all_ten_in_order (env : ResolverEnv) (target : String)
    (h : ParseIP target = none) :
    (main [target] env).invoked =
      ["A", "AAAA", "CNAME", "MX", "NS", "TXT", "SOA", "SRV", "CERT", "DNAME"] := by
  simp [main, h, runTable, lookupFuncs]

/-- Witness for C1: on `example.com` with every lookup failing, all ten
entries are still invoked in table order. -/
theorem c1_witness :
    (main ["example.com"] errEnv).invoked =
      ["A", "AAAA", "CNAME", "MX", "NS", "TXT", "SOA", "SRV", "CERT", "DNAME"] :=
  c1_domain_invokes_all_ten_in_order errEnv "example.com" (by decide)

/-- C2: with exactly one argument, exactly one classification path runs:
an IP-literal target invokes only PTR; any other target invokes exactly
the ten table lookups in order and never PTR; no lookup is attempted
twice. -/
theorem c2_one_classification_path (env : ResolverEnv) (target : String) :
    ((ParseIP target).isSome → (main [target] env).invoked = ["PTR"]) ∧
    (ParseIP target = none →
      (main [target] env).invoked =
        ["A", "AAAA", "CNAME", "MX", "NS", "TXT", "SOA", "SRV", "CERT", "DNAME"] ∧
      "PTR" ∉ (main [target] env).invoked) ∧
    (main [target] env).invoked.Nodup := by
  by_cases hp : (ParseIP target).isSome
  · refine ⟨fun _ => ?_, fun hn => ?_, ?_⟩
    · simp [main, hp]
    · exact absurd hn (by simp [Option.isSome_iff_exists] at hp; obtain ⟨v, hv⟩ := hp; simp [hv])
    · simp [main, hp]
  · have hn : ParseIP target = none := Option.not_isSome_iff_eq_none.mp hp
    refine ⟨fun hs => absurd hs hp, fun _ => ?_, ?_⟩
    · constructor
      · simp [main, hn, runTable, lookupFuncs]
      · simp [main, hn, runTable, lookupFuncs]
    · simp [main, hn, runTable, lookupFuncs]

/-- Witness for C2: the IP literal `8.8.8.8` invokes only PTR. -/
theorem c2_witness : (main ["8.8.8.8"] errEnv).invoked = ["PTR"] :=
  (c2_one_classification_path errEnv "8.8.8.8").1 (by decide)

/-- C3: the PTR lookup rejects every target that fails IP-literal parsing
with the validation error, with a result independent of the resolution
environment (no network I/O); on a target that parses, it returns exactly
the reverse lookup's outcome. -/
theorem c3_ptr_validation_and_reverse (env env2 : ResolverEnv) (addr : String) :
    (ParseIP addr = none →
      lookupPTR env addr = .error "PTR lookup requires an IP address" ∧
      lookupPTR env addr = lookupPTR env2 addr) ∧
    (ParseIP addr ≠ none → lookupPTR env addr = env.lookupAddr addr) := by
  constructor
  · intro hn
    constructor <;> simp [lookupPTR, hn]
  · intro hs
    simp only [lookupPTR, hs, if_false]
    cases h : env.lookupAddr addr <;> simp [h]

/-- Witness for C3: a non-IP string fails with the validation error in
the all-failing environment; `8.8.8.8` returns the resolver's names. -/
theorem c3_witness :
    lookupPTR errEnv "localhost" = .error "PTR lookup requires an IP address" ∧
    lookupPTR okEnv "8.8.8.8" = okEnv.lookupAddr "8.8.8.8" :=
  ⟨((c3_ptr_validation_and_reverse errEnv okEnv "localhost").1 (by decide)).1,
   (c3_ptr_validation_and_reverse okEnv errEnv "8.8.8.8").2 (by decide)⟩

/-- C4: when the host lookup succeeds, the A lookup returns exactly the
addresses whose parsed IP converts to 4-byte form and the AAAA lookup
exactly those converting to 16-byte but not 4-byte form, each as an
order-preserving filter of the resolver-returned list. -/
theorem c4_a_aaaa_filter_order (env : ResolverEnv) (domain : String) (addrs : List String)
    (h : env.lookupHost domain = .ok addrs) :
    lookupA env domain = .ok (addrs.filter (fun addr => (To4 (ParseIP addr)).isSome)) ∧
    lookupAAAA env domain =
      .ok (addrs.filter (fun addr =>
        (To16 (ParseIP addr)).isSome && (To4 (ParseIP addr)).isNone)) := by
  constructor <;> simp [lookupA, lookupAAAA, h]

/-- Witness for C4: on the mocked address list, A returns exactly the
IPv4 address and AAAA exactly the IPv6 address. -/
theorem c4_witness :
    lookupA c4Env "example.com" = .ok ["93.184.216.34"] ∧
    lookupAAAA c4Env "example.com" = .ok ["2606:2800:220:1:248:1893:25c8:1946"] := by
  have h := c4_a_aaaa_filter_order c4Env "example.com"
    ["93.184.216.34", "2606:2800:220:1:248:1893:25c8:1946"] rfl
  exact ⟨h.1.trans (by rfl), h.2.trans (by rfl)⟩

/-- C5: on a successful direct SOA query, the SOA lookup returns the
answer section's records mapped through `formatSOA`, which renders an SOA
record as `"NS: <ns>, Mbox: <mbox>, Serial: <serial>"` and silently skips
every record of a different type. -/
theorem c5_soa_format_and_skip (env : ResolverEnv) (domain : String) (resp : DnsMsg)
    (h : env.exchange (Fqdn domain) (StringToType "SOA") = .ok resp)
    (hr : resp.rcode = RcodeSuccess) :
    lookupSOA env domain = .ok (resp.answer.filterMap formatSOA) ∧
    (∀ ns mbox serial, formatSOA (RR.soa ns mbox serial) =
      some ("NS: " ++ ns ++ ", Mbox: " ++ mbox ++ ", Serial: " ++ toString serial)) ∧
    (∀ rr : RR, (∀ ns mbox serial, rr ≠ RR.soa ns mbox serial) → formatSOA rr = none) := by
  refine ⟨?_, fun ns mbox serial => rfl, fun rr hrr => ?_⟩
  · simp [lookupSOA, dnsQuery, h, hr, RcodeSuccess]
  · cases rr with
    | soa ns mbox serial => exact absurd rfl (hrr ns mbox serial)
    | srv _ _ _ _ => rfl
    | cert _ _ _ _ => rfl
    | dname _ => rfl
    | other => rfl

/-- Witness for C5: the mocked reply (one SOA record plus one record of
another type) yields exactly the one formatted line. -/
theorem c5_witness :
    lookupSOA soaEnv "example.com" =
      .ok ["NS: ns1.example.com, Mbox: admin.example.com, Serial: 2024010100"] := by
  have h := c5_soa_format_and_skip soaEnv "example.com" soaMsg rfl rfl
  exact h.1.trans (by rfl)

/-- C6: a direct query fails with the exchange's own error exactly when
the exchange fails, fails with the `"invalid answer"` error exactly when
the reply's response code is not success, and otherwise returns the
answer section unchanged. -/
theorem c6_dnsQuery_cases (env : ResolverEnv) (domain qtype : String) :
    (∀ msg, env.exchange (Fqdn domain) (StringToType qtype) = .error msg →
      dnsQuery env domain qtype = .error msg) ∧
    (∀ resp, env.exchange (Fqdn domain) (StringToType qtype) = .ok resp →
      resp.rcode ≠ RcodeSuccess →
      dnsQuery env domain qtype = .error ("invalid answer for " ++ domain ++ " type " ++ qtype)) ∧
    (∀ resp, env.exchange (Fqdn domain) (StringToType qtype) = .ok resp →
      resp.rcode = RcodeSuccess → dnsQuery env domain qtype = .ok resp.answer) := by
  refine ⟨fun msg hm => ?_, fun resp hresp hrc => ?_, fun resp hresp hrc => ?_⟩
  · simp [dnsQuery, hm]
  · simp [dnsQuery, hresp, hrc]
  · simp [dnsQuery, hresp, hrc]

/-- Witness for C6: a failing exchange propagates its message; a reply
with response code 3 yields the `"invalid answer"` error; a successful
reply yields its answer section. -/
theorem c6_witness :
    dnsQuery errEnv "example.com" "SOA" = .error "i/o timeout" ∧
    dnsQuery badRcodeEnv "example.com" "SOA" =
      .error "invalid answer for example.com type SOA" ∧
    dnsQuery soaEnv "example.com" "SOA" = .ok soaMsg.answer :=
  ⟨(c6_dnsQuery_cases errEnv "example.com" "SOA").1 "i/o timeout" rfl,
   (c6_dnsQuery_cases badRcodeEnv "example.com" "SOA").2.1 ⟨3, []⟩ rfl (by decide),
   (c6_dnsQuery_cases soaEnv "example.com" "SOA").2.2 soaMsg rfl rfl⟩

/-- C7: with an argument count other than one, the program prints the
usage line to standard error, exits with status 1, prints nothing to
standard output, and invokes no lookup. -/
theorem c7_usage_error (args : List String) (env : ResolverEnv) (h : args.length ≠ 1) :
    main args env =
      { exitCode := 1, stdout := [], stderr := ["Usage: godns <domain|ip>"], invoked := [] } := by
  match args with
  | [] => rfl
  | _ :: _ :: _ => rfl
  | [a] => exact absurd rfl h

/-- Witness for C7: zero arguments trigger the usage error. -/
theorem c7_witness :
    main [] errEnv =
      { exitCode := 1, stdout := [], stderr := ["Usage: godns <domain|ip>"], invoked := [] } :=
  c7_usage_error [] errEnv (by decide)

/-- C8: with exactly one argument the process exits with status 0 in
every environment, in particular when every single lookup fails. -/
theorem c8_exit_zero (env : ResolverEnv) (target : String) :
    (main [target] env).exitCode = 0 := by
  by_cases hp : (ParseIP target).isSome <;> simp [main, hp]

/-- C9: the presenter prints one `"<label>: error: <message>"` line on an
error, the label header followed by each record indented by two spaces on
a non-empty result, and nothing at all on an empty result. -/
theorem c9_presenter (label msg : String) (records : List String) :
    renderEntry label (.error msg) = [label ++ ": error: " ++ msg] ∧
    renderEntry label (.ok []) = [] ∧
    (records ≠ [] →
      renderEntry label (.ok records) =
        (label ++ ":") :: records.map (fun rec => "  " ++ rec)) := by
  refine ⟨rfl, rfl, fun hne => ?_⟩
  simp [renderEntry, List.length_pos.mpr hne]

/-- Witness for C9: two NS records render as a header plus two indented
lines. -/
theorem c9_witness :
    renderEntry "NS" (.ok ["ns1.example.com.", "ns2.example.com."]) =
      ["NS:", "  ns1.example.com.", "  ns2.example.com."] :=
  ((c9_presenter "NS" "" ["ns1.example.com.", "ns2.example.com."]).2.2
    (by decide)).trans (by decide)

/-- C10: an address string whose parsed IP converts to 4-byte form (such
as an IPv4-mapped IPv6 literal) lands in the A results and not in the
AAAA results; an address string that does not parse at all is excluded
from both, and neither lookup errors because of it. -/
theorem c10_mapped_and_unparseable (env : ResolverEnv) (domain : String)
    (addrs : List String) (addr : String)
    (h : env.lookupHost domain = .ok addrs) (hmem : addr ∈ addrs) :
    ((To4 (ParseIP addr)).isSome →
      addr ∈ resultsOf (lookupA env domain) ∧
      addr ∉ resultsOf (lookupAAAA env domain)) ∧
    (ParseIP addr = none →
      addr ∉ resultsOf (lookupA env domain) ∧
      addr ∉ resultsOf (lookupAAAA env domain)) ∧
    isOkResult (lookupA env domain) = true ∧
    isOkResult (lookupAAAA env domain) = true := by
  have hA : lookupA env domain =
      .ok (addrs.filter (fun a => (To4 (ParseIP a)).isSome)) := by
    simp [lookupA, h]
  have hAAAA : lookupAAAA env domain =
      .ok (addrs.filter (fun a => (To16 (ParseIP a)).isSome && (To4 (ParseIP a)).isNone)) := by
    simp [lookupAAAA, h]
  refine ⟨fun h4 => ⟨?_, ?_⟩, fun hn => ⟨?_, ?_⟩, ?_, ?_⟩
  · rw [hA]; exact List.mem_filter.mpr ⟨hmem, h4⟩
  · rw [hAAAA]
    intro hc
    have := (List.mem_filter.mp hc).2
    simp [Option.isNone_iff_eq_none] at this
    exact absurd h4 (by simp [this.2])
  · rw [hA]
    intro hc
    have := (List.mem_filter.mp hc).2
    simp [hn, To4] at this
  · rw [hAAAA]
    intro hc
    have := (List.mem_filter.mp hc).2
    simp [hn, To4, To16] at this
  · rw [hA]; rfl
  · rw [hAAAA]; rfl

/-- Witness for C10: with the host lookup returning an IPv4-mapped IPv6
address, that address appears in the A results and not in the AAAA
results. -/
theorem c10_witness :
    "::ffff:192.0.2.1" ∈ resultsOf (lookupA c10Env "example.com") ∧
    "::ffff:192.0.2.1" ∉ resultsOf (lookupAAAA c10Env "example.com") :=
  (c10_mapped_and_unparseable c10Env "example.com" ["::ffff:192.0.2.1", "bogus"]
    "::ffff:192.0.2.1" rfl (by decide)).1 (by decide)

end GoDNS
